import Mathlib

/-!
Shallow embedding of the content-acquisition engine of `scraper.py`
(LightNovelCrawler): the per-page retry loop, the pagination walker,
the content stitcher, the image capture subsystem (`download_image` and
the per-image loop), and the chapter orchestrator of `main`.
Python string operations (`replace`, `strip`, `in`, `split`,
`os.path.splitext`) are modelled on `List Char`.
-/

namespace Scraper

/-- `MOBILE_WARNING_TEXT` constant of `scraper.py`. -/
def MOBILE_WARNING_TEXT : String := "手機版頁面由於相容性問題暫不支持電腦端閱讀"

/-- `LOAD_FAILURE_TEXT` constant of `scraper.py`. -/
def LOAD_FAILURE_TEXT : String := "內容加載失敗！請重載或更換瀏覽器"

/-- `MAX_PAGE_RELOADS` constant of `scraper.py`. -/
def MAX_PAGE_RELOADS : Nat := 3

/-- Whitespace characters removed by Python `str.strip()` (ASCII range). -/
def isPySpace (c : Char) : Bool :=
  c = ' ' || c = '\t' || c = '\n' || c = '\x0d' || c = '\x0b' || c = '\x0c'

/-- Python `str.strip()` on the character list. -/
def pyStripL (s : List Char) : List Char :=
  ((s.dropWhile isPySpace).reverse.dropWhile isPySpace).reverse

/-- Python `str.strip()`. -/
def pyStrip (s : String) : String := ⟨pyStripL s.data⟩

/-- Python substring test `pat in s`. -/
def containsSub (pat : List Char) : List Char → Bool
  | [] => pat.isEmpty
  | c :: rest => pat.isPrefixOf (c :: rest) || containsSub pat rest

/-- Python `s.replace(pat, "")` (leftmost, non-overlapping), with fuel;
fuel `s.length` always suffices because every step consumes at least one
character of the remaining input. -/
def removeOccsAux (pat : List Char) : Nat → List Char → List Char
  | 0, s => s
  | _ + 1, [] => []
  | fuel + 1, c :: rest =>
    if pat.isPrefixOf (c :: rest) && !pat.isEmpty then
      removeOccsAux pat fuel ((c :: rest).drop pat.length)
    else
      c :: removeOccsAux pat fuel rest

/-- Python `s.replace(pat, "")` for a non-empty pattern. -/
def pyRemoveAll (pat s : String) : String :=
  ⟨removeOccsAux pat.data s.data.length s.data⟩

/-- Line 252 of `scraper.py`:
`page_text_content.replace(MOBILE_WARNING_TEXT, "").replace(LOAD_FAILURE_TEXT, "")`. -/
def stripSignatures (s : String) : String :=
  pyRemoveAll LOAD_FAILURE_TEXT (pyRemoveAll MOBILE_WARNING_TEXT s)

/-- Index of the last occurrence of `c` in `s`, if any (Python `str.rfind`). -/
def lastIdxOf (c : Char) (s : List Char) : Option Nat :=
  match s.reverse.findIdx? (· == c) with
  | none => none
  | some j => some (s.length - 1 - j)

/-- Extension part of `os.path.splitext` (posix rules: the extension starts at
the last dot after the last slash, unless the basename consists only of
leading dots up to that dot). -/
def splitextExt (s : List Char) : List Char :=
  match lastIdxOf '.' s with
  | none => []
  | some d =>
    let start := match lastIdxOf '/' s with | none => 0 | some j => j + 1
    if start ≤ d ∧ ((s.drop start).take (d - start)).any (fun c => c ≠ '.') then
      s.drop d
    else []

/-- Python `url.split('?')[0]`. -/
def beforeQuery (s : List Char) : List Char := s.takeWhile (· ≠ '?')

/-- Python `s.startswith(pre)`. -/
def pyStartsWith (s pre : String) : Bool := pre.data.isPrefixOf s.data

/-- ASCII lowercasing of one character (the fragment of Python
`str.lower()` relevant to urls). -/
def asciiLower (c : Char) : Char :=
  if 'A' ≤ c ∧ c ≤ 'Z' then Char.ofNat (c.toNat + 32) else c

/-- Python `s.lower()` (ASCII range). -/
def pyLower (s : String) : String := ⟨s.data.map asciiLower⟩

/-!
## Page observation model

One iteration of the inner retry loop of `get_chapter_content`
(lines 120-275) observes exactly one of: the mobile-compatibility warning
is visible (line 156); content extraction raised a Playwright timeout
(line 262) or another exception (line 269); or extraction produced
`content_html` (possibly `None` after the `page.evaluate` fallback,
line 187-197). Everything downstream of the observation (the load-failure
substring check, the emptiness checks, text extraction, image capture)
is modelled faithfully from the source below.
-/

/-- What one attempt (one iteration of the inner reload loop) observes. -/
inductive PageObs where
  | warning
  | extracted (html : Option String)
  | extractTimeout
  | extractError

/-- An `<img>` element as seen by `soup.find_all('img')`: its `data-src`
and `src` attributes (`none` when absent; the empty string is falsy in
Python, which the model reproduces via `Option.getD ""`). -/
structure ImgTag where
  dataSrc : Option String
  src : Option String
deriving DecidableEq

/-- The observable part of an HTTP response for `download_image`:
whether `raise_for_status` passes, and the `content-type` header. -/
structure HttpResponse where
  ok : Bool
  contentType : Option String
deriving DecidableEq

/-- The environment of one chapter run: `getText` is
`soup.get_text(separator='\n', strip=True)`; `findImgs` is
`soup.find_all('img')`; `urljoin` is `urllib.parse.urljoin`; `http`
gives the response of `requests.get` (`none` = `RequestException`);
`writeOk` tells whether writing a file at a path succeeds; `imageDir`
is the per-novel images directory. -/
structure Env where
  getText : String → String
  findImgs : String → List ImgTag
  urljoin : String → String → String
  http : String → Option HttpResponse
  writeOk : String → Bool
  imageDir : String

/-- `download_image(url, save_path, referer)` of `scraper.py` (lines
53-89): network error or HTTP error returns `False`; a truthy
`content-type` header not starting with `image/` returns `False` before
any file is opened; otherwise the file is written (write error returns
`False`). -/
def download_image (http : String → Option HttpResponse) (writeOk : String → Bool)
    (url save_path : String) : Bool :=
  match http url with
  | none => false
  | some r =>
    if r.ok = false then false
    else
      let ct := r.contentType.getD ""
      if ct ≠ "" ∧ pyStartsWith ct "image/" = false then false
      else writeOk save_path

/-- Chapter-scoped image state: `counter` is `img_counter`; `saved`
records the save paths of successfully downloaded images;
`downloadCalls` records every url for which `download_image` was
invoked. -/
structure ImgState where
  counter : Nat
  saved : List String
  downloadCalls : List String
deriving DecidableEq

/-- The initial image state of a chapter (`img_counter = 0`, line 102). -/
def imgSt0 : ImgState := ⟨0, [], []⟩

/-- The source location the code chooses for an `<img>` tag (lines
219-232): a truthy `data-src` wins; otherwise a truthy `src` is used
unless it contains `sloading.svg` (case-insensitively); otherwise the
tag is skipped. -/
def chosenSource (img : ImgTag) : Option String :=
  let data_src := img.dataSrc.getD ""
  let src := img.src.getD ""
  if data_src ≠ "" then some data_src
  else if src ≠ "" ∧ containsSub "sloading.svg".data (pyLower src).data = false then some src
  else none

/-- Extension for the image file (lines 237-238): suffix of the
pre-query part of the absolute url, defaulting to `.jpg`. -/
def extOf (absolute : String) : String :=
  let e := splitextExt (beforeQuery absolute.data)
  if e.isEmpty then ".jpg" else ⟨e⟩

/-- `os.path.join(image_dir, f"{chapter_filename_base}_{img_counter}{img_ext}")`
(lines 239-240). -/
def savePathOf (env : Env) (chBase : String) (counter : Nat) (absolute : String) : String :=
  env.imageDir ++ "/" ++ chBase ++ "_" ++ toString counter ++ extOf absolute

/-- Processing of one `<img>` tag (lines 217-248): choose a source,
resolve it against the page url, download; `img_counter` advances only
on a successful download (line 244). -/
def processImg (env : Env) (pageBaseUrl chBase : String) (st : ImgState) (img : ImgTag) :
    ImgState :=
  match chosenSource img with
  | none => st
  | some u =>
    let absolute := env.urljoin pageBaseUrl u
    let path := savePathOf env chBase st.counter absolute
    if download_image env.http env.writeOk absolute path then
      ⟨st.counter + 1, st.saved ++ [path], st.downloadCalls ++ [absolute]⟩
    else
      ⟨st.counter, st.saved, st.downloadCalls ++ [absolute]⟩

/-- The per-page image loop (line 217). -/
def processImages (env : Env) (pageBaseUrl chBase : String) (st : ImgState)
    (imgs : List ImgTag) : ImgState :=
  imgs.foldl (processImg env pageBaseUrl chBase) st

/-- One in-chapter page: its url and what each attempt observes
(`obs k` is the observation of the attempt made with
`page_reload_count = k`; each continuing iteration increments the
counter by exactly one, so attempts are indexed by the counter). -/
structure PageSpec where
  url : String
  obs : Nat → PageObs

/-- Result of the inner retry loop for one page: `success` is
`page_fetch_successful`, `text` is `page_text_content`, `count` is the
final `page_reload_count`, `attempts` the number of loop iterations
executed, `reloadsDone` the number of `page.reload()` calls. -/
structure PageOutcome where
  success : Bool
  text : Option String
  count : Nat
  attempts : Nat
  reloadsDone : Nat
deriving DecidableEq

/-- The inner page load/extraction retry loop of `get_chapter_content`
(lines 120-275), with fuel; the loop runs while
`page_reload_count ≤ MAX_PAGE_RELOADS`, so fuel `MAX_PAGE_RELOADS + 1`
is exact. A visible mobile warning, an extraction timeout, an
extraction error, and extracted html containing `LOAD_FAILURE_TEXT` all
increment the same counter and break when it exceeds the budget; only
the two signature causes call `page.reload()`. Non-empty extracted html
runs image capture, then yields the signature-stripped text. Empty html
breaks the loop without touching the counter. -/
def pageLoopAux (env : Env) (chBase : String) (p : PageSpec) :
    Nat → Nat → Nat → Nat → ImgState → PageOutcome × ImgState
  | 0, k, a, rd, st => (⟨false, none, k, a, rd⟩, st)
  | fuel + 1, k, a, rd, st =>
    match p.obs k with
    | .warning =>
      if k + 1 > MAX_PAGE_RELOADS then (⟨false, none, k + 1, a + 1, rd⟩, st)
      else pageLoopAux env chBase p fuel (k + 1) (a + 1) (rd + 1) st
    | .extractTimeout =>
      if k + 1 > MAX_PAGE_RELOADS then (⟨false, none, k + 1, a + 1, rd⟩, st)
      else pageLoopAux env chBase p fuel (k + 1) (a + 1) rd st
    | .extractError =>
      if k + 1 > MAX_PAGE_RELOADS then (⟨false, none, k + 1, a + 1, rd⟩, st)
      else pageLoopAux env chBase p fuel (k + 1) (a + 1) rd st
    | .extracted html =>
      let h := html.getD ""
      if h ≠ "" ∧ containsSub LOAD_FAILURE_TEXT.data h.data = true then
        if k + 1 > MAX_PAGE_RELOADS then (⟨false, none, k + 1, a + 1, rd⟩, st)
        else pageLoopAux env chBase p fuel (k + 1) (a + 1) (rd + 1) st
      else if h ≠ "" ∧ pyStrip h ≠ "" then
        (⟨true, some (stripSignatures (env.getText h)), k, a + 1, rd⟩,
          processImages env p.url chBase st (env.findImgs h))
      else
        (⟨false, none, k, a + 1, rd⟩, st)

/-- Run the inner retry loop for one page from a fresh
`page_reload_count = 0` (line 117). -/
def runPage (env : Env) (chBase : String) (p : PageSpec) (st : ImgState) :
    PageOutcome × ImgState :=
  pageLoopAux env chBase p (MAX_PAGE_RELOADS + 1) 0 0 0 st

/-- The outcome of a page, which is independent of the image state
threaded through (the image state never feeds back into the outcome). -/
def outcomeOf (env : Env) (chBase : String) (p : PageSpec) : PageOutcome :=
  (runPage env chBase p imgSt0).1

/-- Lines 284-288: a successful page's text is appended to
`all_text_parts` only when it is truthy and strips to something
non-empty. -/
def partOf (o : PageOutcome) : List String :=
  match o.text with
  | some t => if t ≠ "" ∧ pyStrip t ≠ "" then [t] else []
  | none => []

/-- The outer pagination loop of `get_chapter_content` (lines 111-332):
pages are processed in order; the first unsuccessful page sets
`chapter_fetch_successful = False` and aborts the chapter (lines
279-282); the image state is threaded across pages (`img_counter` is
chapter-scoped). The list of pages ends where the next-page control is
absent. -/
def walkPages (env : Env) (chBase : String) :
    List PageSpec → ImgState → Option (List String) × ImgState
  | [], st => (some [], st)
  | p :: rest, st =>
    let r := runPage env chBase p st
    if r.1.success = true then
      let w := walkPages env chBase rest r.2
      match w.1 with
      | none => (none, w.2)
      | some ps => (some (partOf r.1 ++ ps), w.2)
    else (none, r.2)

/-- `get_chapter_content` (lines 91-348): `none` when the chapter fetch
failed; the empty string when no text parts were collected (line 344);
otherwise the parts joined with a blank line and stripped (lines
346-348). The second component is the final image state of the
chapter. -/
def get_chapter_content (env : Env) (chBase : String) (pages : List PageSpec) :
    Option String × ImgState :=
  let w := walkPages env chBase pages imgSt0
  match w.1 with
  | none => (none, w.2)
  | some [] => (some "", w.2)
  | some parts => (some (pyStrip (String.intercalate "\n\n" parts)), w.2)

/-!
## Orchestrator model (the chapter loop of `main`, lines 549-585)
-/

/-- The output directory as an association list from file name to file
content; `fsWrite` prepends, and lookups take the first match. -/
abbrev FS := List (String × String)

/-- `os.path.exists(filepath)`. -/
def fsExists (fs : FS) (name : String) : Bool := fs.any (fun e => e.1 == name)

/-- Content of a file, if present. -/
def fsRead (fs : FS) (name : String) : Option String :=
  (fs.find? (fun e => e.1 == name)).map (fun e => e.2)

/-- `open(filepath, 'w')` followed by the two writes. -/
def fsWrite (fs : FS) (name content : String) : FS := (name, content) :: fs

/-- A chapter link together with the simulated pagination sequence its
url leads to. -/
structure ChapterSpec where
  title : String
  pages : List PageSpec

/-- One iteration of the chapter loop of `main` (lines 549-580) for the
chapter at index `i` (0-based): `fb i title` models
`sanitize_filename(f"{i+1:03d}_{title}")`, the filename base used both
for the `.txt` artifact and for image names. Returns the updated
filesystem and the number of chapter fetch attempts made (0 when the
artifact already exists and the chapter is skipped, line 558; otherwise
1). A chapter whose fetch fails, or whose text still contains
`LOAD_FAILURE_TEXT` at save time (line 567), writes nothing.
`saveChapterText` is the save step (lines 566-578). -/
def saveChapterText (fs : FS) (filepath title : String) : Option String → FS × Nat
  | none => (fs, 1)
  | some text =>
    if containsSub LOAD_FAILURE_TEXT.data text.data then (fs, 1)
    else (fsWrite fs filepath (title ++ "\n\n" ++ text), 1)

def processChapter (env : Env) (fb : Nat → String → String) (fs : FS) (i : Nat)
    (ch : ChapterSpec) : FS × Nat :=
  let base := fb i ch.title
  let filepath := base ++ ".txt"
  if fsExists fs filepath then (fs, 0)
  else saveChapterText fs filepath ch.title (get_chapter_content env base ch.pages).1

/-- The whole chapter loop of `main`: processes the chapters in order,
accumulating the filesystem and the total number of chapter fetch
attempts. -/
def runChapters (env : Env) (fb : Nat → String → String) :
    FS → Nat → List ChapterSpec → FS × Nat
  | fs, _, [] => (fs, 0)
  | fs, i, ch :: rest =>
    let r := processChapter env fb fs i ch
    let r2 := runChapters env fb r.1 (i + 1) rest
    (r2.1, r.2 + r2.2)

/-!
## Classification of attempts

These predicates name, over the observation of one attempt, exactly the
branch of the inner retry loop that fires.
-/

/-- The two "bad signature" causes, the ones that call `page.reload()`:
a visible mobile warning (line 156) or extracted html containing
`LOAD_FAILURE_TEXT` (line 200). -/
def badSignature : PageObs → Prop
  | .warning => True
  | .extracted h => h.getD "" ≠ "" ∧ containsSub LOAD_FAILURE_TEXT.data (h.getD "").data = true
  | .extractTimeout => False
  | .extractError => False

instance : DecidablePred badSignature := fun o => by
  cases o <;> simp only [badSignature] <;> infer_instance

/-- Every cause that consumes one unit of the retry budget: the two bad
signatures plus an extraction timeout (line 262) and an extraction
error (line 269). -/
def badAttempt : PageObs → Prop
  | .extractTimeout => True
  | .extractError => True
  | o => badSignature o

instance : DecidablePred badAttempt := fun o => by
  cases o <;> simp only [badAttempt] <;> infer_instance

/-- An attempt that falls through to the `else` branch of lines 258-260:
extraction returned html that is neither a load-failure page nor
non-blank content. -/
def blankExtract : PageObs → Prop
  | .extracted h =>
    ¬(h.getD "" ≠ "" ∧ containsSub LOAD_FAILURE_TEXT.data (h.getD "").data = true)
      ∧ ¬(h.getD "" ≠ "" ∧ pyStrip (h.getD "") ≠ "")
  | _ => False

instance : DecidablePred blankExtract := fun o => by
  cases o <;> simp only [blankExtract] <;> infer_instance

/-- Number of `page.reload()` calls made during the first `n` attempts,
assuming none of them broke out of the loop. -/
def countReloads (p : PageSpec) : Nat → Nat
  | 0 => 0
  | n + 1 => countReloads p n + (if badSignature (p.obs n) then 1 else 0)

/-!
## Step lemmas for the inner retry loop
-/

theorem pageLoop_step_bad (env : Env) (chBase : String) (p : PageSpec)
    (fuel k a rd : Nat) (st : ImgState)
    (hb : badAttempt (p.obs k)) (hk : k < MAX_PAGE_RELOADS) :
    pageLoopAux env chBase p (fuel + 1) k a rd st
      = pageLoopAux env chBase p fuel (k + 1) (a + 1)
          (rd + (if badSignature (p.obs k) then 1 else 0)) st := by
  cases hobs : p.obs k with
  | warning =>
    simp only [pageLoopAux, hobs]
    rw [if_neg (by omega)]
    simp [badSignature]
  | extractTimeout =>
    simp only [pageLoopAux, hobs]
    rw [if_neg (by omega)]
    simp [badSignature]
  | extractError =>
    simp only [pageLoopAux, hobs]
    rw [if_neg (by omega)]
    simp [badSignature]
  | extracted h =>
    rw [hobs] at hb
    have hcond : h.getD "" ≠ "" ∧ containsSub LOAD_FAILURE_TEXT.data (h.getD "").data = true := hb
    simp only [pageLoopAux, hobs]
    rw [if_pos hcond, if_neg (by omega), if_pos (show badSignature (.extracted h) from hcond)]

theorem pageLoop_last_bad (env : Env) (chBase : String) (p : PageSpec)
    (fuel k a rd : Nat) (st : ImgState)
    (hb : badAttempt (p.obs k)) (hk : k = MAX_PAGE_RELOADS) :
    pageLoopAux env chBase p (fuel + 1) k a rd st = (⟨false, none, k + 1, a + 1, rd⟩, st) := by
  cases hobs : p.obs k with
  | warning =>
    simp only [pageLoopAux, hobs]
    rw [if_pos (by omega)]
  | extractTimeout =>
    simp only [pageLoopAux, hobs]
    rw [if_pos (by omega)]
  | extractError =>
    simp only [pageLoopAux, hobs]
    rw [if_pos (by omega)]
  | extracted h =>
    rw [hobs] at hb
    have hcond : h.getD "" ≠ "" ∧ containsSub LOAD_FAILURE_TEXT.data (h.getD "").data = true := hb
    simp only [pageLoopAux, hobs]
    rw [if_pos hcond, if_pos (by omega)]

theorem pageLoop_blank (env : Env) (chBase : String) (p : PageSpec)
    (fuel k a rd : Nat) (st : ImgState) (hb : blankExtract (p.obs k)) :
    pageLoopAux env chBase p (fuel + 1) k a rd st = (⟨false, none, k, a + 1, rd⟩, st) := by
  cases hobs : p.obs k with
  | warning => rw [hobs] at hb; exact hb.elim
  | extractTimeout => rw [hobs] at hb; exact hb.elim
  | extractError => rw [hobs] at hb; exact hb.elim
  | extracted h =>
    rw [hobs] at hb
    simp only [pageLoopAux, hobs]
    rw [if_neg hb.1, if_neg hb.2]

/-- Running the loop through `i` budget-consuming attempts, all bad. -/
theorem pageLoop_bad_steps (env : Env) (chBase : String) (p : PageSpec) (st : ImgState)
    (i : Nat) (hi : i ≤ MAX_PAGE_RELOADS) (hpre : ∀ j, j < i → badAttempt (p.obs j)) :
    pageLoopAux env chBase p (MAX_PAGE_RELOADS + 1) 0 0 0 st
      = pageLoopAux env chBase p (MAX_PAGE_RELOADS + 1 - i) i i (countReloads p i) st := by
  induction i with
  | zero => simp [countReloads]
  | succ n ih =>
    have hn : n ≤ MAX_PAGE_RELOADS := by omega
    have hlt : n < MAX_PAGE_RELOADS := by omega
    rw [ih hn (fun j hj => hpre j (by omega))]
    have hfuel : MAX_PAGE_RELOADS + 1 - n = (MAX_PAGE_RELOADS + 1 - (n + 1)) + 1 := by omega
    rw [hfuel, pageLoop_step_bad env chBase p _ n n (countReloads p n) st (hpre n (by omega)) hlt]
    rfl

/-!
## Structural lemmas: what the page outcome can and cannot depend on
-/

/-- The page outcome depends only on the observations and on `getText`:
neither the threaded image state, nor the image-capture environment
(`findImgs`, `urljoin`, `http`, `writeOk`, `imageDir`), nor the chapter
filename base feed back into it. -/
theorem pageLoopAux_fst_congr (env env' : Env) (chBase chBase' : String) (p : PageSpec)
    (hg : env.getText = env'.getText) :
    ∀ fuel k a rd : Nat, ∀ st st' : ImgState,
      (pageLoopAux env chBase p fuel k a rd st).1
        = (pageLoopAux env' chBase' p fuel k a rd st').1 := by
  intro fuel
  induction fuel with
  | zero => intro k a rd st st'; rfl
  | succ n ih =>
    intro k a rd st st'
    cases hobs : p.obs k with
    | warning =>
      simp only [pageLoopAux, hobs]
      split
      · rfl
      · exact ih (k + 1) (a + 1) (rd + 1) st st'
    | extractTimeout =>
      simp only [pageLoopAux, hobs]
      split
      · rfl
      · exact ih (k + 1) (a + 1) rd st st'
    | extractError =>
      simp only [pageLoopAux, hobs]
      split
      · rfl
      · exact ih (k + 1) (a + 1) rd st st'
    | extracted h =>
      simp only [pageLoopAux, hobs]
      split
      · split
        · rfl
        · exact ih (k + 1) (a + 1) (rd + 1) st st'
      · split
        · simp [hg]
        · rfl

/-- The outcome of `runPage` is `outcomeOf`, whatever image state is
threaded through. -/
theorem runPage_fst (env : Env) (chBase : String) (p : PageSpec) (st : ImgState) :
    (runPage env chBase p st).1 = outcomeOf env chBase p :=
  pageLoopAux_fst_congr env env chBase chBase p rfl _ 0 0 0 st imgSt0

/-- A successful page outcome never has a final reload counter above the
budget: the success branch returns the counter unchanged, and the loop
only continues while it is within budget. -/
theorem pageLoop_success_count (env : Env) (chBase : String) (p : PageSpec) :
    ∀ fuel k a rd : Nat, ∀ st : ImgState, k ≤ MAX_PAGE_RELOADS →
      (pageLoopAux env chBase p fuel k a rd st).1.success = true →
      (pageLoopAux env chBase p fuel k a rd st).1.count ≤ MAX_PAGE_RELOADS := by
  intro fuel
  induction fuel with
  | zero => intro k a rd st _ hs; exact absurd hs (by simp [pageLoopAux])
  | succ n ih =>
    intro k a rd st hk hs
    cases hobs : p.obs k with
    | warning =>
      simp only [pageLoopAux, hobs] at hs ⊢
      split at hs
      · exact absurd hs (by simp)
      · rename_i hgt
        rw [if_neg hgt]
        exact ih (k + 1) (a + 1) (rd + 1) st (by omega) hs
    | extractTimeout =>
      simp only [pageLoopAux, hobs] at hs ⊢
      split at hs
      · exact absurd hs (by simp)
      · rename_i hgt
        rw [if_neg hgt]
        exact ih (k + 1) (a + 1) rd st (by omega) hs
    | extractError =>
      simp only [pageLoopAux, hobs] at hs ⊢
      split at hs
      · exact absurd hs (by simp)
      · rename_i hgt
        rw [if_neg hgt]
        exact ih (k + 1) (a + 1) rd st (by omega) hs
    | extracted h =>
      simp only [pageLoopAux, hobs] at hs ⊢
      split at hs
      · rename_i hcond
        rw [if_pos hcond]
        split at hs
        · exact absurd hs (by simp)
        · rename_i hgt
          rw [if_neg hgt]
          exact ih (k + 1) (a + 1) (rd + 1) st (by omega) hs
      · rename_i hcond
        rw [if_neg hcond]
        split at hs
        · rename_i hgood
          rw [if_pos hgood]
          exact hk
        · rename_i hgood
          rw [if_neg hgood]
          exact absurd hs (by simp)

/-- An exhausted page (`page_reload_count` past the budget) was not
successful. -/
theorem outcome_exhausted_not_success (env : Env) (chBase : String) (p : PageSpec)
    (hc : (outcomeOf env chBase p).count = MAX_PAGE_RELOADS + 1) :
    (outcomeOf env chBase p).success = false := by
  by_contra hs
  have hs' : (outcomeOf env chBase p).success = true := by
    cases h : (outcomeOf env chBase p).success
    · exact absurd h hs
    · rfl
  have := pageLoop_success_count env chBase p (MAX_PAGE_RELOADS + 1) 0 0 0 imgSt0
    (by omega) hs'
  rw [show (pageLoopAux env chBase p (MAX_PAGE_RELOADS + 1) 0 0 0 imgSt0).1
    = outcomeOf env chBase p from rfl] at this
  omega

/-!
## The pagination walker as a fold over independent page outcomes
-/

/-- Specification-level view of the pagination walker: process the
per-page outcomes in order, abort at the first failure, otherwise
collect the appended parts. -/
def firstFailureFree : List PageOutcome → Option (List String)
  | [] => some []
  | o :: rest =>
    if o.success = true then
      match firstFailureFree rest with
      | none => none
      | some ps => some (partOf o ++ ps)
    else none

theorem walkPages_cons_fst (env : Env) (chBase : String) (p : PageSpec)
    (rest : List PageSpec) (st : ImgState) :
    (walkPages env chBase (p :: rest) st).1
      = if (runPage env chBase p st).1.success = true then
          match (walkPages env chBase rest (runPage env chBase p st).2).1 with
          | none => none
          | some ps => some (partOf (runPage env chBase p st).1 ++ ps)
        else none := by
  simp only [walkPages]
  split
  · cases hw : (walkPages env chBase rest (runPage env chBase p st).2).1 <;> simp [hw]
  · rfl

/-- The walker's first component: each page is judged by a fresh run of
the retry loop (the reload counter is reset per page), and the chapter
fails at the first failed page. -/
theorem walkPages_fst (env : Env) (chBase : String) :
    ∀ (pages : List PageSpec) (st : ImgState),
      (walkPages env chBase pages st).1
        = firstFailureFree (pages.map (outcomeOf env chBase)) := by
  intro pages
  induction pages with
  | nil => intro st; rfl
  | cons p rest ih =>
    intro st
    rw [walkPages_cons_fst, runPage_fst]
    simp only [List.map, firstFailureFree]
    split
    · rw [ih]
    · rfl

/-- If every page outcome is successful, the walker collects exactly the
per-outcome parts, in order. -/
theorem firstFailureFree_all_success :
    ∀ outs : List PageOutcome, (∀ o ∈ outs, o.success = true) →
      firstFailureFree outs = some (outs.map partOf).flatten := by
  intro outs
  induction outs with
  | nil => intro _; rfl
  | cons o rest ih =>
    intro h
    simp only [firstFailureFree, List.map]
    rw [if_pos (h o (by simp)), ih (fun x hx => h x (by simp [hx]))]
    exact rfl

/-- If some page outcome failed, the walker yields no parts. -/
theorem firstFailureFree_failure :
    ∀ outs : List PageOutcome, (∃ o ∈ outs, o.success = false) →
      firstFailureFree outs = none := by
  intro outs
  induction outs with
  | nil => rintro ⟨o, ho, _⟩; exact absurd ho (by simp)
  | cons o rest ih =>
    rintro ⟨x, hx, hxf⟩
    simp only [firstFailureFree]
    rcases List.mem_cons.mp hx with h | h
    · subst h
      rw [if_neg (by simp [hxf])]
    · split
      · rw [ih ⟨x, h, hxf⟩]
      · rfl

/-!
## Helpers for the budget-exhaustion claims
-/

theorem badAttempt_of_badSignature {o : PageObs} (h : badSignature o) : badAttempt o := by
  cases o with
  | warning => exact h
  | extracted html => exact h
  | extractTimeout => exact h.elim
  | extractError => exact h.elim

theorem countReloads_all_sig (p : PageSpec) :
    ∀ n : Nat, (∀ j, j < n → badSignature (p.obs j)) → countReloads p n = n := by
  intro n
  induction n with
  | zero => intro _; rfl
  | succ m ih =>
    intro h
    simp only [countReloads]
    rw [ih (fun j hj => h j (by omega)), if_pos (h m (by omega))]

/-- A page all of whose in-budget attempts consume budget ends exhausted:
final counter and attempt count are both `MAX_PAGE_RELOADS + 1`, no text,
no success, and the image state is untouched. -/
theorem runPage_all_bad (env : Env) (chBase : String) (p : PageSpec) (st : ImgState)
    (h : ∀ k, k ≤ MAX_PAGE_RELOADS → badAttempt (p.obs k)) :
    runPage env chBase p st
      = (⟨false, none, MAX_PAGE_RELOADS + 1, MAX_PAGE_RELOADS + 1,
          countReloads p MAX_PAGE_RELOADS⟩, st) := by
  show pageLoopAux env chBase p (MAX_PAGE_RELOADS + 1) 0 0 0 st = _
  rw [pageLoop_bad_steps env chBase p st MAX_PAGE_RELOADS le_rfl
        (fun j hj => h j (le_of_lt hj)),
      show MAX_PAGE_RELOADS + 1 - MAX_PAGE_RELOADS = 0 + 1 from by omega,
      pageLoop_last_bad env chBase p 0 MAX_PAGE_RELOADS MAX_PAGE_RELOADS
        (countReloads p MAX_PAGE_RELOADS) st (h MAX_PAGE_RELOADS le_rfl) rfl]

/-!
## Concrete instances used by witnesses and counterexamples
-/

/-- An environment whose page-independent pieces are all trivial. -/
def envW : Env :=
  ⟨fun _ => "", fun _ => [], fun b r => b ++ r, fun _ => none, fun _ => true, "img"⟩

/-- A simulated page on which the mobile warning is visible on every
attempt. -/
def pAllWarning : PageSpec := ⟨"u", fun _ => .warning⟩

/-- A simulated page that fails each attempt through a different cause:
mobile warning, extraction timeout, extraction error, then a
load-failure page. -/
def pMixedBad : PageSpec :=
  ⟨"u", fun k =>
    if k = 0 then .warning
    else if k = 1 then .extractTimeout
    else if k = 2 then .extractError
    else .extracted (some LOAD_FAILURE_TEXT)⟩

/-- A simulated page that observes the warning once and then blank
extracted html. -/
def pWarnThenBlank : PageSpec :=
  ⟨"u", fun k => if k = 1 then .extracted (some "") else .warning⟩

/-!
## Claim C2
-/

/-- C2: a page that classifies as a bad signature (mobile warning or
load-failure placeholder) on every attempt is reloaded exactly
`MAX_PAGE_RELOADS` times and then the attempt sequence terminates (after
`MAX_PAGE_RELOADS + 1` attempts, structurally bounded) with the page
failed and its reload counter past the budget — the model's
`ExhaustedRetries`. -/
theorem bad_signature_exhausts_budget (env : Env) (chBase : String) (p : PageSpec)
    (st : ImgState) (h : ∀ k, k ≤ MAX_PAGE_RELOADS → badSignature (p.obs k)) :
    (runPage env chBase p st).1
      = ⟨false, none, MAX_PAGE_RELOADS + 1, MAX_PAGE_RELOADS + 1, MAX_PAGE_RELOADS⟩ := by
  rw [runPage_all_bad env chBase p st (fun k hk => badAttempt_of_badSignature (h k hk)),
      countReloads_all_sig p MAX_PAGE_RELOADS (fun j hj => h j (le_of_lt hj))]

/-- Witness for C2 at a page whose every attempt shows the mobile
warning. -/
theorem bad_signature_exhausts_budget_witness :
    (∀ k, k ≤ MAX_PAGE_RELOADS → badSignature (pAllWarning.obs k))
      ∧ (runPage envW "c" pAllWarning imgSt0).1
          = ⟨false, none, MAX_PAGE_RELOADS + 1, MAX_PAGE_RELOADS + 1, MAX_PAGE_RELOADS⟩ :=
  ⟨fun _ _ => trivial,
   bad_signature_exhausts_budget envW "c" pAllWarning imgSt0 (fun _ _ => trivial)⟩

/-!
## Claim C9
-/

/-- C9: the retry budget is one per-page counter. All four bad-attempt
causes (mobile warning, load-failure placeholder, extraction timeout,
extraction error) increment the same counter, bounded by the same
`MAX_PAGE_RELOADS`, with no per-cause sub-budget: any mix of causes on
every in-budget attempt exhausts the page after exactly
`MAX_PAGE_RELOADS + 1` attempts. The counter is reset for every new
page: the walker judges each page by a fresh run of the retry loop from
counter zero (`outcomeOf`), independent of the other pages. -/
theorem retry_budget_single_counter (env : Env) (chBase : String) (p : PageSpec)
    (st : ImgState) (h : ∀ k, k ≤ MAX_PAGE_RELOADS → badAttempt (p.obs k)) :
    (runPage env chBase p st).1.success = false
      ∧ (runPage env chBase p st).1.count = MAX_PAGE_RELOADS + 1
      ∧ (runPage env chBase p st).1.attempts = MAX_PAGE_RELOADS + 1
      ∧ ∀ (pages : List PageSpec) (st2 : ImgState),
          (walkPages env chBase pages st2).1
            = firstFailureFree (pages.map (outcomeOf env chBase)) := by
  rw [runPage_all_bad env chBase p st h]
  exact ⟨rfl, rfl, rfl, fun pages st2 => walkPages_fst env chBase pages st2⟩

/-- Witness for C9 at a page whose four attempts fail through four
different causes. -/
theorem retry_budget_single_counter_witness :
    (∀ k, k ≤ MAX_PAGE_RELOADS → badAttempt (pMixedBad.obs k))
      ∧ ((runPage envW "c" pMixedBad imgSt0).1.success = false
          ∧ (runPage envW "c" pMixedBad imgSt0).1.count = MAX_PAGE_RELOADS + 1
          ∧ (runPage envW "c" pMixedBad imgSt0).1.attempts = MAX_PAGE_RELOADS + 1
          ∧ ∀ (pages : List PageSpec) (st2 : ImgState),
              (walkPages envW "c" pages st2).1
                = firstFailureFree (pages.map (outcomeOf envW "c"))) :=
  ⟨by decide, retry_budget_single_counter envW "c" pMixedBad imgSt0 (by decide)⟩

/-!
## Claim C6
-/

/-- C6: when an attempt extracts html that is classified usable-path but
blank (neither a load-failure page nor non-empty content), the page
gives up immediately: the loop ends on that very attempt, no reload is
attempted for it, and the retry counter keeps the value the earlier
attempts gave it. -/
theorem empty_extraction_gives_up (env : Env) (chBase : String) (p : PageSpec)
    (st : ImgState) (k : Nat) (hk : k ≤ MAX_PAGE_RELOADS)
    (hpre : ∀ j, j < k → badAttempt (p.obs j)) (hblank : blankExtract (p.obs k)) :
    (runPage env chBase p st).1.success = false
      ∧ (runPage env chBase p st).1.text = none
      ∧ (runPage env chBase p st).1.count = k
      ∧ (runPage env chBase p st).1.attempts = k + 1 := by
  have hrun : runPage env chBase p st = (⟨false, none, k, k + 1, countReloads p k⟩, st) := by
    show pageLoopAux env chBase p (MAX_PAGE_RELOADS + 1) 0 0 0 st = _
    rw [pageLoop_bad_steps env chBase p st k hk hpre,
        show MAX_PAGE_RELOADS + 1 - k = (MAX_PAGE_RELOADS - k) + 1 from by omega,
        pageLoop_blank env chBase p (MAX_PAGE_RELOADS - k) k k (countReloads p k) st hblank]
  rw [hrun]
  exact ⟨rfl, rfl, rfl, rfl⟩

/-- Witness for C6 at a page that shows the warning once (consuming one
budget unit) and then extracts blank html. -/
theorem empty_extraction_gives_up_witness :
    ((1 : Nat) ≤ MAX_PAGE_RELOADS
        ∧ (∀ j, j < 1 → badAttempt (pWarnThenBlank.obs j))
        ∧ blankExtract (pWarnThenBlank.obs 1))
      ∧ ((runPage envW "c" pWarnThenBlank imgSt0).1.success = false
          ∧ (runPage envW "c" pWarnThenBlank imgSt0).1.text = none
          ∧ (runPage envW "c" pWarnThenBlank imgSt0).1.count = 1
          ∧ (runPage envW "c" pWarnThenBlank imgSt0).1.attempts = 1 + 1) :=
  ⟨⟨by decide, by decide, by decide⟩,
   empty_extraction_gives_up envW "c" pWarnThenBlank imgSt0 1 (by decide) (by decide) (by decide)⟩

/-!
## Claim C1
-/

/-- C1: if some page of a chapter's pagination sequence exhausts its
retry budget (final reload counter past `MAX_PAGE_RELOADS`, the `GIVE_UP`
outcome), the whole chapter fails: `get_chapter_content` returns no
body, and the orchestrator's chapter step writes nothing to the output
directory — no partial multi-page chapter is persisted. -/
theorem failed_page_chapter_not_persisted (env : Env) (fb : Nat → String → String)
    (fs : FS) (i : Nat) (ch : ChapterSpec)
    (h : ∃ p ∈ ch.pages, (outcomeOf env (fb i ch.title) p).count = MAX_PAGE_RELOADS + 1) :
    (get_chapter_content env (fb i ch.title) ch.pages).1 = none
      ∧ (processChapter env fb fs i ch).1 = fs := by
  obtain ⟨p, hp, hc⟩ := h
  have hfail : (outcomeOf env (fb i ch.title) p).success = false :=
    outcome_exhausted_not_success env (fb i ch.title) p hc
  have hwalk : (walkPages env (fb i ch.title) ch.pages imgSt0).1 = none := by
    rw [walkPages_fst]
    exact firstFailureFree_failure _
      ⟨outcomeOf env (fb i ch.title) p, List.mem_map_of_mem _ hp, hfail⟩
  have hcontent : (get_chapter_content env (fb i ch.title) ch.pages).1 = none := by
    simp only [get_chapter_content]
    rw [hwalk]
  refine ⟨hcontent, ?_⟩
  simp only [processChapter]
  split
  · rfl
  · rw [hcontent]
    rfl

/-- A single-chapter list whose one page always shows the warning. -/
def chW : ChapterSpec := ⟨"t", [pAllWarning]⟩

/-- A trivial filename-base function for witnesses. -/
def fbW : Nat → String → String := fun _ _ => "b"

/-- Witness for C1: a one-page chapter whose page always shows the
mobile warning; nothing is written. -/
theorem failed_page_chapter_not_persisted_witness :
    (∃ p ∈ chW.pages, (outcomeOf envW (fbW 0 chW.title) p).count = MAX_PAGE_RELOADS + 1)
      ∧ (get_chapter_content envW (fbW 0 chW.title) chW.pages).1 = none
      ∧ (processChapter envW fbW [] 0 chW).1 = [] :=
  ⟨⟨pAllWarning, List.Mem.head _, by decide⟩,
   failed_page_chapter_not_persisted envW fbW [] 0 chW
     ⟨pAllWarning, List.Mem.head _, by decide⟩⟩

/-!
## Claim C5
-/

/-- The texts the walker appends: per page, the outcome's text if truthy
after stripping; blank texts contribute nothing. -/
def collectedParts (env : Env) (chBase : String) (pages : List PageSpec) : List String :=
  ((pages.map (outcomeOf env chBase)).map partOf).flatten

/-- A page whose single attempt extracts the html `"h"`. -/
def pageGood : PageSpec := ⟨"u", fun _ => .extracted (some "h")⟩

/-- Environment giving three distinct page texts `"a"`, `" "`, `"b"`. -/
def env5 : Env :=
  ⟨fun h => if h = "h1" then "a" else if h = "h2" then " " else "b",
   fun _ => [], fun b r => b ++ r, fun _ => none, fun _ => true, "img"⟩

/-- Three pages whose extracted texts are `"a"`, `" "`, `"b"` under
`env5`. -/
def pages5 : List PageSpec :=
  [⟨"u1", fun _ => .extracted (some "h1")⟩,
   ⟨"u2", fun _ => .extracted (some "h2")⟩,
   ⟨"u3", fun _ => .extracted (some "h3")⟩]

/-- Environment whose every page text is `" a"` (leading whitespace). -/
def env5b : Env :=
  ⟨fun _ => " a", fun _ => [], fun b r => b ++ r, fun _ => none, fun _ => true, "img"⟩

/-- Counterexample to C5 as stated. First input (`env5`, `pages5`): the
per-page extracted texts are `"a"`, `" "`, `"b"`, all pages succeed, yet
the returned body is `"a\n\nb"`, not the claim's join-then-trim value
`"a\n\n \n\nb"` — the code drops blank page texts before joining (line
284). Second input (`env5b`, one page): the page's extracted text is
`" a"` but the single-page body is `"a"`, not the extracted text — the
final `strip()` (line 348) applies to single-page chapters too. -/
theorem stitcher_counterexample :
    ((pages5.map (outcomeOf env5 "c")).filterMap (fun o => o.text) = ["a", " ", "b"]
        ∧ (∀ p ∈ pages5, (outcomeOf env5 "c" p).success = true)
        ∧ (get_chapter_content env5 "c" pages5).1 = some "a\n\nb"
        ∧ pyStrip (String.intercalate "\n\n" ["a", " ", "b"]) = "a\n\n \n\nb"
        ∧ ("a\n\nb" : String) ≠ "a\n\n \n\nb")
      ∧ ((outcomeOf env5b "c" pageGood).text = some " a"
          ∧ (get_chapter_content env5b "c" [pageGood]).1 = some "a"
          ∧ ("a" : String) ≠ " a") := by
  exact ⟨⟨by decide, by decide, by decide, by decide, by decide⟩,
         ⟨by decide, by decide, by decide⟩⟩

/-- C5 amended: for a chapter whose pages all succeed, the returned body
equals the non-blank per-page extracted texts joined in pagination order
by the fixed separator `"\n\n"`, with leading and trailing whitespace
trimmed from the final result; a single-page chapter's body is that
page's extracted text trimmed (and equals it exactly only when the text
has no leading/trailing whitespace). -/
theorem stitcher_joins_nonblank_parts (env : Env) (chBase : String)
    (pages : List PageSpec)
    (h : ∀ p ∈ pages, (outcomeOf env chBase p).success = true) :
    (get_chapter_content env chBase pages).1
      = some (pyStrip (String.intercalate "\n\n" (collectedParts env chBase pages))) := by
  have hwalk : (walkPages env chBase pages imgSt0).1
      = some (collectedParts env chBase pages) := by
    rw [walkPages_fst]
    exact firstFailureFree_all_success _ (fun o ho => by
      obtain ⟨p, hp, rfl⟩ := List.mem_map.mp ho
      exact h p hp)
  simp only [get_chapter_content]
  rw [hwalk]
  cases hcp : collectedParts env chBase pages with
  | nil => rfl
  | cons a as => rfl

/-- Witness for C5 (amended) at the three-page chapter of `env5`. -/
theorem stitcher_joins_nonblank_parts_witness :
    (∀ p ∈ pages5, (outcomeOf env5 "c" p).success = true)
      ∧ (get_chapter_content env5 "c" pages5).1
          = some (pyStrip (String.intercalate "\n\n" (collectedParts env5 "c" pages5))) :=
  ⟨by decide, stitcher_joins_nonblank_parts env5 "c" pages5 (by decide)⟩

/-!
## Claim C3
-/

/-- An environment whose pages carry two identical image tags and whose
downloads all succeed with an image content type. -/
def envImg : Env :=
  ⟨fun _ => "text", fun _ => [⟨some "a.jpg", none⟩, ⟨some "a.jpg", none⟩],
   fun b r => b ++ r, fun _ => some ⟨true, some "image/jpeg"⟩, fun _ => true, "img"⟩

/-- A page at `http://x/` extracting html `"h"`. -/
def pageImg : PageSpec := ⟨"http://x/", fun _ => .extracted (some "h")⟩

/-- An image tag whose lazy-load attribute is `a.jpg`. -/
def imgA : ImgTag := ⟨some "a.jpg", none⟩

/-- Counterexample to C3 as stated: two image references on one page
resolving to the same absolute location `http://x/a.jpg` are both
downloaded — two download calls, two saved files, two consumed ordinals
— because the per-image loop (lines 217-248) keeps no dedup set. -/
theorem image_dedup_counterexample :
    (get_chapter_content envImg "001_c" [pageImg]).2
      = ⟨2, ["img/001_c_0.jpg", "img/001_c_1.jpg"],
          ["http://x/a.jpg", "http://x/a.jpg"]⟩ := by decide

/-- C3 amended: the per-image loop keeps no per-chapter dedup set.
Every image tag with a chosen source triggers its own `download_image`
call on the resolved location, regardless of any earlier capture of the
same location, and each successful download consumes its own ordinal
(the counter advances exactly when the download succeeds). -/
theorem image_no_dedup_each_capture (env : Env) (base chBase : String)
    (st : ImgState) (img : ImgTag) (u : String) (h : chosenSource img = some u) :
    (processImg env base chBase st img).downloadCalls
        = st.downloadCalls ++ [env.urljoin base u]
      ∧ (processImg env base chBase st img).counter
        = (if download_image env.http env.writeOk (env.urljoin base u)
              (savePathOf env chBase st.counter (env.urljoin base u))
           then st.counter + 1 else st.counter) := by
  constructor
  · simp only [processImg, h]
    split <;> rfl
  · simp only [processImg, h]
    split <;> rfl

/-- Witness for C3 (amended), starting from a state that already
captured the same location once. -/
theorem image_no_dedup_each_capture_witness :
    chosenSource imgA = some "a.jpg"
      ∧ ((processImg envImg "http://x/" "001_c"
            ⟨1, ["img/001_c_0.jpg"], ["http://x/a.jpg"]⟩ imgA).downloadCalls
          = (⟨1, ["img/001_c_0.jpg"], ["http://x/a.jpg"]⟩ : ImgState).downloadCalls
              ++ [envImg.urljoin "http://x/" "a.jpg"]
        ∧ (processImg envImg "http://x/" "001_c"
            ⟨1, ["img/001_c_0.jpg"], ["http://x/a.jpg"]⟩ imgA).counter
          = (if download_image envImg.http envImg.writeOk
                (envImg.urljoin "http://x/" "a.jpg")
                (savePathOf envImg "001_c"
                  (⟨1, ["img/001_c_0.jpg"], ["http://x/a.jpg"]⟩ : ImgState).counter
                  (envImg.urljoin "http://x/" "a.jpg"))
             then (⟨1, ["img/001_c_0.jpg"], ["http://x/a.jpg"]⟩ : ImgState).counter + 1
             else (⟨1, ["img/001_c_0.jpg"], ["http://x/a.jpg"]⟩ : ImgState).counter)) :=
  ⟨by decide,
   image_no_dedup_each_capture envImg "http://x/" "001_c"
     ⟨1, ["img/001_c_0.jpg"], ["http://x/a.jpg"]⟩ imgA "a.jpg" (by decide)⟩

/-!
## Claim C7
-/

/-- An image tag whose lazy-load attribute is itself the placeholder
asset. -/
def imgLazyPh : ImgTag := ⟨some "sloading.svg", none⟩

/-- An image tag with no lazy-load attribute and a placeholder `src`. -/
def imgPh : ImgTag := ⟨none, some "/sloading.svg"⟩

/-- Counterexample to C7 as stated: an image element whose chosen source
location is the lazy-load attribute `sloading.svg` resolves to
`http://x/sloading.svg`, which matches the placeholder signature, yet
one capture attempt (a `download_image` call) is made — the code's
placeholder check (line 225) applies only to the raw `src` attribute,
never to `data-src`, and runs before resolution. -/
theorem placeholder_lazy_counterexample :
    chosenSource imgLazyPh = some "sloading.svg"
      ∧ containsSub "sloading.svg".data
          (pyLower (envImg.urljoin "http://x/" "sloading.svg")).data = true
      ∧ (processImg envImg "http://x/" "c" imgSt0 imgLazyPh).downloadCalls
          = ["http://x/sloading.svg"] := by decide

/-- C7 amended: an image element with no truthy lazy-load attribute
whose raw standard source attribute contains the placeholder signature
`sloading.svg` (case-insensitively, checked before resolution) produces
zero capture attempts: the element is skipped before any download, and
the image state is unchanged. The lazy-load attribute is never checked
against the signature. -/
theorem placeholder_src_skipped (env : Env) (base chBase : String) (st : ImgState)
    (img : ImgTag) (hlazy : img.dataSrc.getD "" = "")
    (hph : containsSub "sloading.svg".data (pyLower (img.src.getD "")).data = true) :
    processImg env base chBase st img = st := by
  have hcs : chosenSource img = none := by
    simp only [chosenSource]
    rw [if_neg (by simp [hlazy]), if_neg ?hc]
    case hc =>
      rintro ⟨_, hfalse⟩
      rw [hph] at hfalse
      simp at hfalse
  simp only [processImg, hcs]

/-- Witness for C7 (amended) at the placeholder-src tag. -/
theorem placeholder_src_skipped_witness :
    imgPh.dataSrc.getD "" = ""
      ∧ containsSub "sloading.svg".data (pyLower (imgPh.src.getD "")).data = true
      ∧ processImg envImg "http://x/" "c" imgSt0 imgPh = imgSt0 :=
  ⟨rfl, by decide,
   placeholder_src_skipped envImg "http://x/" "c" imgSt0 imgPh rfl (by decide)⟩

/-!
## Claim C8
-/

/-- C8: (i) a response whose declared content type does not begin with
`image/` is rejected by `download_image` — it returns failure whatever
the write behaviour, so no file is opened; (ii) a successful download
implies the response existed, passed `raise_for_status`, its declared
content type (if truthy) begins with `image/`, and the write succeeded;
(iii) image-local behaviour (the HTTP client, write outcomes, url
resolution, the found image tags, the image directory and filename
base) never influences the page outcomes or the chapter's text result —
image failures are skipped without failing the page or chapter. -/
theorem content_type_verification :
    (∀ (http : String → Option HttpResponse) (writeOk : String → Bool)
        (url path : String) (r : HttpResponse) (ct : String),
      http url = some r → r.contentType = some ct → ct ≠ "" →
      pyStartsWith ct "image/" = false →
      download_image http writeOk url path = false)
    ∧ (∀ (http : String → Option HttpResponse) (writeOk : String → Bool)
        (url path : String),
      download_image http writeOk url path = true →
      ∃ r, http url = some r ∧ r.ok = true
        ∧ (r.contentType.getD "" = ""
            ∨ pyStartsWith (r.contentType.getD "") "image/" = true)
        ∧ writeOk path = true)
    ∧ (∀ (env env' : Env) (chBase chBase' : String) (pages : List PageSpec)
        (st st' : ImgState),
      env.getText = env'.getText →
      (walkPages env chBase pages st).1 = (walkPages env' chBase' pages st').1) := by
  refine ⟨?_, ?_, ?_⟩
  · intro http writeOk url path r ct hr hct hne hsw
    simp only [download_image, hr, hct]
    split
    · rfl
    · rw [if_pos ⟨hne, hsw⟩]
  · intro http writeOk url path hd
    cases hr : http url with
    | none =>
      simp only [download_image, hr] at hd
      exact absurd hd (by simp)
    | some r =>
      simp only [download_image, hr] at hd
      split at hd
      · exact absurd hd (by simp)
      · rename_i hok
        split at hd
        · exact absurd hd (by simp)
        · rename_i hct
          refine ⟨r, rfl, by simpa using hok, ?_, hd⟩
          by_cases hc : r.contentType.getD "" = ""
          · exact Or.inl hc
          · right
            cases hsw : pyStartsWith (r.contentType.getD "") "image/" with
            | false => exact absurd ⟨hc, hsw⟩ hct
            | true => rfl
  · intro env env' chBase chBase' pages st st' hg
    rw [walkPages_fst, walkPages_fst]
    have hout : outcomeOf env chBase = outcomeOf env' chBase' :=
      funext (fun p =>
        pageLoopAux_fst_congr env env' chBase chBase' p hg
          (MAX_PAGE_RELOADS + 1) 0 0 0 imgSt0 imgSt0)
    rw [hout]

/-- A client always answering with a non-image content type. -/
def httpBad : String → Option HttpResponse := fun _ => some ⟨true, some "text/html"⟩

/-- A client always answering with an image content type. -/
def httpGood : String → Option HttpResponse := fun _ => some ⟨true, some "image/png"⟩

/-- A write function that always succeeds. -/
def wOk : String → Bool := fun _ => true

/-- A shared `getText` for the two environments of the C8 witness. -/
def gtA : String → String := fun _ => "a"

/-- Environment with a failing image client. -/
def envA : Env := ⟨gtA, fun _ => [imgA], fun b r => b ++ r, httpBad, wOk, "img"⟩

/-- Same text behaviour as `envA` with a succeeding image client. -/
def envB : Env := ⟨gtA, fun _ => [], fun _ r => r, httpGood, fun _ => false, "other"⟩

/-- Witness for C8: a `text/html` response is rejected; a successful
download on `httpGood` implies the image content type and write success;
and two environments differing in their whole image subsystem give the
same chapter text result. -/
theorem content_type_verification_witness :
    download_image httpBad wOk "u" "p" = false
      ∧ (∃ r, httpGood "u" = some r ∧ r.ok = true
          ∧ (r.contentType.getD "" = ""
              ∨ pyStartsWith (r.contentType.getD "") "image/" = true)
          ∧ wOk "p" = true)
      ∧ (walkPages envA "c" [pageGood] imgSt0).1
          = (walkPages envB "c2" [pageGood] imgSt0).1 :=
  ⟨content_type_verification.1 httpBad wOk "u" "p" ⟨true, some "text/html"⟩
     "text/html" rfl rfl (by decide) (by decide),
   content_type_verification.2.1 httpGood wOk "u" "p" (by decide),
   content_type_verification.2.2 envA envB "c" "c2" [pageGood] imgSt0 imgSt0 rfl⟩

/-!
## Helpers for the orchestrator claims
-/

theorem processChapter_skip (env : Env) (fb : Nat → String → String) (fs : FS)
    (i : Nat) (ch : ChapterSpec) (h : fsExists fs (fb i ch.title ++ ".txt") = true) :
    processChapter env fb fs i ch = (fs, 0) := by
  simp only [processChapter]
  rw [if_pos h]

theorem runChapters_all_exist (env : Env) (fb : Nat → String → String) :
    ∀ (chs : List ChapterSpec) (fs : FS) (i : Nat),
      (∀ j (hj : j < chs.length),
        fsExists fs (fb (i + j) (chs.get ⟨j, hj⟩).title ++ ".txt") = true) →
      runChapters env fb fs i chs = (fs, 0) := by
  intro chs
  induction chs with
  | nil => intro fs i _; rfl
  | cons ch rest ih =>
    intro fs i h
    have h0 : fsExists fs (fb i ch.title ++ ".txt") = true := by
      have := h 0 (by simp)
      simpa using this
    have hrest : runChapters env fb fs (i + 1) rest = (fs, 0) := by
      apply ih
      intro j hj
      have hj' : j + 1 < (ch :: rest).length := by simpa using Nat.succ_lt_succ hj
      have hmem := h (j + 1) hj'
      have heq : i + (j + 1) = i + 1 + j := by omega
      rw [heq] at hmem
      simpa using hmem
    simp only [runChapters, processChapter_skip env fb fs i ch h0]
    simp [hrest]

theorem processChapter_preserve (env : Env) (fb : Nat → String → String) (fs : FS)
    (i : Nat) (ch : ChapterSpec) (name : String) (h : fsExists fs name = true) :
    fsRead (processChapter env fb fs i ch).1 name = fsRead fs name
      ∧ fsExists (processChapter env fb fs i ch).1 name = true := by
  simp only [processChapter]
  split
  · exact ⟨rfl, h⟩
  · rename_i hnot
    cases hc : (get_chapter_content env (fb i ch.title) ch.pages).1 with
    | none => exact ⟨rfl, h⟩
    | some text =>
      simp only [saveChapterText]
      split
      · exact ⟨rfl, h⟩
      · have hne : ((fb i ch.title ++ ".txt") == name) = false := by
          cases hbe : ((fb i ch.title ++ ".txt") == name) with
          | false => rfl
          | true =>
            have heq : fb i ch.title ++ ".txt" = name := by simpa using hbe
            rw [heq] at hnot
            exact absurd h hnot
        constructor
        · simp [fsWrite, fsRead, List.find?, hne]
        · have h' : fs.any (fun e => e.1 == name) = true := h
          simp [fsWrite, fsExists, hne, h']

theorem runChapters_preserve (env : Env) (fb : Nat → String → String) :
    ∀ (chs : List ChapterSpec) (fs : FS) (i : Nat) (name : String),
      fsExists fs name = true →
      fsRead (runChapters env fb fs i chs).1 name = fsRead fs name := by
  intro chs
  induction chs with
  | nil => intro fs i name _; rfl
  | cons ch rest ih =>
    intro fs i name h
    have hp := processChapter_preserve env fb fs i ch name h
    simp only [runChapters]
    rw [ih (processChapter env fb fs i ch).1 (i + 1) name hp.2, hp.1]

/-!
## Claim C4
-/

/-- Counterexample to C4 as stated: a chapter list whose one chapter
fails (its single page always shows the warning) writes nothing on the
first run, so the second run over the same list performs one fetch
attempt, not zero — failed chapters are deliberately re-attempted
(nothing was persisted for them, line 558 cannot skip them). -/
theorem second_run_refetch_counterexample :
    runChapters envW fbW [] 0 [chW] = ([], 1)
      ∧ (runChapters envW fbW (runChapters envW fbW [] 0 [chW]).1 0 [chW]).2 = 1 :=
  ⟨by decide, by decide⟩

/-- C4 amended: a second run performs zero additional chapter fetch
attempts when every chapter's output artifact exists after the first run
(chapters that failed, and hence have no artifact, are re-attempted);
and in all cases a run never modifies an artifact that already exists —
previously written artifacts stay byte-identical. -/
theorem orchestrator_skip_existing :
    (∀ (env : Env) (fb : Nat → String → String) (chs : List ChapterSpec)
        (fs : FS) (i : Nat),
      (∀ j (hj : j < chs.length),
        fsExists fs (fb (i + j) (chs.get ⟨j, hj⟩).title ++ ".txt") = true) →
      runChapters env fb fs i chs = (fs, 0))
    ∧ (∀ (env : Env) (fb : Nat → String → String) (chs : List ChapterSpec)
        (fs : FS) (i : Nat) (name : String),
      fsExists fs name = true →
      fsRead (runChapters env fb fs i chs).1 name = fsRead fs name) :=
  ⟨fun env fb chs fs i h => runChapters_all_exist env fb chs fs i h,
   fun env fb chs fs i name h => runChapters_preserve env fb chs fs i name h⟩

/-- A filesystem already holding the artifact of the only chapter. -/
def fsW : FS := [("b.txt", "x")]

/-- A single zero-page chapter (its artifact already exists in `fsW`). -/
def chsW : List ChapterSpec := [⟨"t", []⟩]

/-- Witness for C4 (amended): with the artifact present, the run makes
zero fetch attempts and leaves the file unchanged. -/
theorem orchestrator_skip_existing_witness :
    runChapters envW fbW fsW 0 chsW = (fsW, 0)
      ∧ fsRead (runChapters envW fbW fsW 0 chsW).1 "b.txt" = fsRead fsW "b.txt" :=
  ⟨orchestrator_skip_existing.1 envW fbW chsW fsW 0 (by decide),
   orchestrator_skip_existing.2 envW fbW chsW fsW 0 "b.txt" (by decide)⟩

/-!
## Claim C10
-/

/-- C10 amended: every file the chapter step adds to the output
directory (beyond what was already there) consists of the chapter title,
a blank line, and a body that does not contain the load-failure literal
— the save-time check (line 567) refuses any text still containing it.
(The mobile-warning literal enjoys no such guarantee: the per-page
`replace` can re-create an occurrence, see the counterexample.) -/
theorem persisted_body_load_failure_free (env : Env) (fb : Nat → String → String)
    (fs : FS) (i : Nat) (ch : ChapterSpec) (name content : String)
    (h : (name, content) ∈ (processChapter env fb fs i ch).1) :
    (name, content) ∈ fs
      ∨ ∃ t, content = ch.title ++ "\n\n" ++ t
          ∧ containsSub LOAD_FAILURE_TEXT.data t.data = false := by
  simp only [processChapter] at h
  split at h
  · exact Or.inl h
  · cases hc : (get_chapter_content env (fb i ch.title) ch.pages).1 with
    | none =>
      rw [hc] at h
      simp only [saveChapterText] at h
      exact Or.inl h
    | some text =>
      rw [hc] at h
      simp only [saveChapterText] at h
      split at h
      · exact Or.inl h
      · rename_i hnotL
        simp only [fsWrite] at h
        rcases List.mem_cons.mp h with heq | hmem
        · right
          injection heq with h1 h2
          refine ⟨text, h2, ?_⟩
          cases hb : containsSub LOAD_FAILURE_TEXT.data text.data with
          | false => rfl
          | true => exact absurd hb hnotL
        · exact Or.inl hmem

/-- A chapter whose single page succeeds. -/
def chB : ChapterSpec := ⟨"t", [pageGood]⟩

/-- Witness for C10 (amended) at a chapter persisted by `env5b`. -/
theorem persisted_body_load_failure_free_witness :
    ("b.txt", "t\n\na") ∈ (processChapter env5b fbW [] 0 chB).1
      ∧ (("b.txt", "t\n\na") ∈ ([] : FS)
          ∨ ∃ t, "t\n\na" = chB.title ++ "\n\n" ++ t
              ∧ containsSub LOAD_FAILURE_TEXT.data t.data = false) :=
  ⟨by decide,
   persisted_body_load_failure_free env5b fbW [] 0 chB "b.txt" "t\n\na" (by decide)⟩

/-- First half of the mobile-warning literal. -/
def mwA : String := ⟨MOBILE_WARNING_TEXT.data.take 10⟩

/-- Second half of the mobile-warning literal. -/
def mwB : String := ⟨MOBILE_WARNING_TEXT.data.drop 10⟩

/-- Environment whose page text is the mobile warning wrapped in its own
halves: removing the literal's one occurrence glues the halves into a
fresh occurrence. -/
def env10 : Env :=
  ⟨fun _ => mwA ++ MOBILE_WARNING_TEXT ++ mwB, fun _ => [],
   fun b r => b ++ r, fun _ => none, fun _ => true, "img"⟩

/-- A one-page chapter for the C10 counterexample. -/
def ch10 : ChapterSpec := ⟨"t", [pageGood]⟩

/-- Counterexample to C10 as stated: the page text
`mwA ++ MOBILE_WARNING_TEXT ++ mwB` still equals the mobile-warning
literal after both `replace` calls (Python `replace` removes the middle
occurrence and the surrounding halves join into a new one), and the
chapter is persisted with that literal in its body — only the
load-failure literal is re-checked at save time (line 567), the
mobile-warning literal is not. -/
theorem mobile_warning_survives_counterexample :
    stripSignatures (mwA ++ MOBILE_WARNING_TEXT ++ mwB) = MOBILE_WARNING_TEXT
      ∧ (processChapter env10 fbW [] 0 ch10).1
          = [("b.txt", "t" ++ "\n\n" ++ MOBILE_WARNING_TEXT)]
      ∧ containsSub MOBILE_WARNING_TEXT.data
          ("t" ++ "\n\n" ++ MOBILE_WARNING_TEXT).data = true :=
  ⟨by decide, by decide, by decide⟩

end Scraper
